import Mathlib

/-!
Verification of the Cyberpunk-2077-API pipeline: a shallow embedding of the
catalog generator (`gerador.py`), the wiki scraper's field-extraction and
merge logic (`scraper/scraper.py`), and the JSON editing service
(`editor/server.py`), together with proofs about the behaviour those
components are specified to have.

Python strings are modelled as Lean `String`s (lists of characters compared
by code point); Python `None`-or-value fields are modelled as `Option`;
Python truthiness of strings is "non-empty".  The regular-expression
substitutions used by the image-URL canonicalizers are embedded as explicit
left-to-right, non-overlapping scanners over character lists, which is the
semantics of `re.sub` for the concrete patterns involved (URLs are taken to
be newline-free, and digits are ASCII digits, which is what wiki image URLs
contain).
-/

namespace Cyberpunk

/-! ## Python string primitives -/

/-- Python `str.lower()` (ASCII case folding, which covers every string the
pipeline compares). -/
def pyLower (s : String) : String := String.mk (s.data.map Char.toLower)

/-- Code-point comparison of character lists: Python's `<=` on strings. -/
def charListLe : List Char → List Char → Bool
  | [], _ => true
  | _ :: _, [] => false
  | a :: as, b :: bs =>
    if a.toNat < b.toNat then true
    else if b.toNat < a.toNat then false
    else charListLe as bs

/-- Python string ordering, as used by `sorted`. -/
def pyStrLe (a b : String) : Prop := charListLe a.data b.data = true

instance : DecidableRel pyStrLe := fun _ _ => inferInstanceAs (Decidable (_ = true))

theorem charListLe_total (a b : List Char) :
    charListLe a b = true ∨ charListLe b a = true := by
  induction a generalizing b with
  | nil => left; rfl
  | cons x xs ih =>
    cases b with
    | nil => right; rfl
    | cons y ys =>
      rcases Nat.lt_trichotomy x.toNat y.toNat with h | h | h
      · left; simp [charListLe, h]
      · have hx : ¬ x.toNat < y.toNat := by omega
        have hy : ¬ y.toNat < x.toNat := by omega
        rcases ih ys with h' | h'
        · left; simp [charListLe, hx, hy, h']
        · right; simp [charListLe, hx, hy, h']
      · right; simp [charListLe, h]

theorem charListLe_trans {a b c : List Char}
    (hab : charListLe a b = true) (hbc : charListLe b c = true) :
    charListLe a c = true := by
  induction a generalizing b c with
  | nil => rfl
  | cons x xs ih =>
    cases b with
    | nil => simp [charListLe] at hab
    | cons y ys =>
      cases c with
      | nil => simp [charListLe] at hbc
      | cons z zs =>
        by_cases hxy : x.toNat < y.toNat
        · by_cases hyz : y.toNat < z.toNat
          · have : x.toNat < z.toNat := by omega
            simp [charListLe, this]
          · by_cases hzy : z.toNat < y.toNat
            · simp [charListLe, hyz, hzy] at hbc
            · have : x.toNat < z.toNat := by omega
              simp [charListLe, this]
        · by_cases hyx : y.toNat < x.toNat
          · simp [charListLe, hxy, hyx] at hab
          · by_cases hyz : y.toNat < z.toNat
            · have : x.toNat < z.toNat := by omega
              simp [charListLe, this]
            · by_cases hzy : z.toNat < y.toNat
              · simp [charListLe, hyz, hzy] at hbc
              · have hxz : ¬ x.toNat < z.toNat := by omega
                have hzx : ¬ z.toNat < x.toNat := by omega
                simp [charListLe, hxy, hyx] at hab
                simp [charListLe, hyz, hzy] at hbc
                simp [charListLe, hxz, hzx]
                exact ih hab hbc

instance : IsTotal String pyStrLe := ⟨fun a b => charListLe_total a.data b.data⟩

instance : IsTrans String pyStrLe := ⟨fun _ _ _ h h' => charListLe_trans h h'⟩

/-- Python `sorted` on a list of strings (code-point order; equal strings are
identical, so any correct sort yields the list `sorted` returns). -/
def pySorted (l : List String) : List String := List.insertionSort pyStrLe l

/-- Decidable substring test: Python's `pat in s`. -/
def substrB (pat : List Char) : List Char → Bool
  | [] => pat.isEmpty
  | c :: rest => pat.isPrefixOf (c :: rest) || substrB pat rest

/-- Python `pat in s` on strings. -/
def pyIn (pat s : String) : Bool := substrB pat.data s.data

/-- Python truthiness of an optional string: `None` and `""` are falsy. -/
def pyTruthy : Option String → Bool
  | none => false
  | some s => !(s = "")

/-- Python `a or b` for two optional strings. -/
def pyOr (a b : Option String) : Option String := if pyTruthy a then a else b

/-- Python `a or d` where `d` is a (truthy) string default. -/
def pyOrD (a : Option String) (d : String) : String :=
  if pyTruthy a then a.getD "" else d

/-- Head-is-a-digit test used by the `\d+` parts of the URL regexes. -/
def headIsDigit : List Char → Bool
  | [] => false
  | c :: _ => c.isDigit

/-- Python `s.count(pat)`: number of non-overlapping occurrences, scanning
left to right (`pat` is non-empty in every use in the source).  The fuel
argument is the scan position budget; `s.length` is always enough because
each step consumes at least one character. -/
def countSubF : Nat → List Char → List Char → Nat
  | 0, _, _ => 0
  | _ + 1, [], _ => 0
  | fuel + 1, c :: rest, pat =>
    if pat.isPrefixOf (c :: rest) then
      countSubF fuel (List.drop (pat.length - 1) rest) pat + 1
    else countSubF fuel rest pat

/-- Python `s.count(pat)` on strings. -/
def pyCount (s pat : String) : Nat := countSubF s.data.length s.data pat.data

/-! ## Image-URL canonicalization (`CyberpunkScraper._clean_image_url` and
`GangsScraper._clean_image_url`) -/

/-- Literal of the resize pattern `/revision/latest/scale-to-width-down/`. -/
def litScale : List Char := "/revision/latest/scale-to-width-down/".data

/-- Literal `/revision/latest`. -/
def litRev : List Char := "/revision/latest".data

/-- Literal `/revision/latest?`. -/
def litRevQ : List Char := "/revision/latest?".data

/-- Literal `/revision/latest/smart/`. -/
def litSmart : List Char := "/revision/latest/smart/".data

/-- Literal `?cb=`. -/
def litCb : List Char := "?cb=".data

/-- Does `re.sub(r'/revision/latest/scale-to-width-down/\d+', ...)` match at
the head of `s`? -/
def scaleMatch (s : List Char) : Bool :=
  litScale.isPrefixOf s && headIsDigit (s.drop litScale.length)

/-- Remainder of `s` after the maximal match of the resize pattern at its
head. -/
def scaleAfter (s : List Char) : List Char :=
  (s.drop litScale.length).dropWhile Char.isDigit

/-- One left-to-right pass of
`re.sub(r'/revision/latest/scale-to-width-down/\d+', '/revision/latest', s)`;
each match is replaced and scanning resumes after the matched region
(replacements are not rescanned), exactly as `re.sub` behaves. -/
def scaleSubF : Nat → List Char → List Char
  | 0, s => s
  | _ + 1, [] => []
  | fuel + 1, c :: rest =>
    if scaleMatch (c :: rest) then litRev ++ scaleSubF fuel (scaleAfter (c :: rest))
    else c :: scaleSubF fuel rest

/-- The resize-segment substitution (fuel instantiated with the length,
which always suffices since every step consumes at least one character). -/
def scaleSub (s : List Char) : List Char := scaleSubF s.length s

/-- Embedding of `re.sub(r'/revision/latest\?.*$', '/revision/latest', s)`
for newline-free strings: everything from the first `/revision/latest?` on
is replaced by `/revision/latest`. -/
def revQSub : List Char → List Char
  | [] => []
  | c :: rest => if litRevQ.isPrefixOf (c :: rest) then litRev else c :: revQSub rest

/-- Does `re.sub(r'\?cb=\d+', ...)` match at the head of `s`? -/
def cbMatch (s : List Char) : Bool :=
  litCb.isPrefixOf s && headIsDigit (s.drop litCb.length)

/-- Remainder of `s` after the maximal `?cb=<digits>` match at its head. -/
def cbAfter (s : List Char) : List Char :=
  (s.drop litCb.length).dropWhile Char.isDigit

/-- One left-to-right pass of `re.sub(r'\?cb=\d+', '', s)`. -/
def cbSubF : Nat → List Char → List Char
  | 0, s => s
  | _ + 1, [] => []
  | fuel + 1, c :: rest =>
    if cbMatch (c :: rest) then cbSubF fuel (cbAfter (c :: rest))
    else c :: cbSubF fuel rest

/-- The cache-buster substitution of the character scraper. -/
def cbSub (s : List Char) : List Char := cbSubF s.length s

/-- Known image extensions tested by both canonicalizers. -/
def IMAGE_EXTS : List String := [".png", ".jpg", ".jpeg", ".gif", ".webp"]

/-- Python `any(ext in url.lower() for ext in [...])`. -/
def hasImageExt (url : List Char) : Bool :=
  IMAGE_EXTS.any (fun e => substrB e.data (url.map Char.toLower))

/-- Embedding of `CyberpunkScraper._clean_image_url` (scraper.py lines
491-505): empty input is rejected, a protocol-relative URL gains `https:`,
the resize segment and the `/revision/latest?...` tail and `?cb=<digits>`
markers are stripped, and anything without a known image extension is
rejected. -/
def clean_image_url (url : String) : Option String :=
  if url = "" then none
  else
    let u1 := if "//".data.isPrefixOf url.data then "https:".data ++ url.data else url.data
    let u2 := scaleSub u1
    let u3 := revQSub u2
    let u4 := cbSub u3
    if hasImageExt u4 then some (String.mk u4) else none

/-- Does the gangs pattern `/revision/latest/smart/.*?\?` match at the head
of `s` (newline-free strings)? -/
def smartMatch (s : List Char) : Bool :=
  litSmart.isPrefixOf s && (s.drop litSmart.length).any (· = '?')

/-- Remainder of `s` after the non-greedy match at its head (everything up
to and including the first `?` after the literal). -/
def smartAfter (s : List Char) : List Char :=
  ((s.drop litSmart.length).dropWhile (· ≠ '?')).drop 1

/-- One left-to-right pass of
`re.sub(r'/revision/latest/smart/.*?\?', '/revision/latest?', s)`. -/
def smartSubF : Nat → List Char → List Char
  | 0, s => s
  | _ + 1, [] => []
  | fuel + 1, c :: rest =>
    if smartMatch (c :: rest) then litRevQ ++ smartSubF fuel (smartAfter (c :: rest))
    else c :: smartSubF fuel rest

/-- The smart-crop substitution of the gangs scraper. -/
def smartSub (s : List Char) : List Char := smartSubF s.length s

/-- Embedding of `re.sub(r'\?cb=\d+.*$', '', s)` for newline-free strings:
everything from the first `?cb=<digit>` on is removed. -/
def cbTailSub : List Char → List Char
  | [] => []
  | c :: rest => if cbMatch (c :: rest) then [] else c :: cbTailSub rest

/-- Embedding of `GangsScraper._clean_image_url` (scraper.py lines
902-913). -/
def gangs_clean_image_url (url : String) : Option String :=
  if url = "" then none
  else
    let u1 := if "//".data.isPrefixOf url.data then "https:".data ++ url.data else url.data
    let u2 := scaleSub u1
    let u3 := smartSub u2
    let u4 := cbTailSub u3
    if hasImageExt u4 then some (String.mk u4) else none

/-- Does the resize pattern match anywhere in `s`? -/
def scaleHas : List Char → Bool
  | [] => false
  | c :: rest => scaleMatch (c :: rest) || scaleHas rest

/-- Does `/revision/latest?` occur in `s`? -/
def revQHas : List Char → Bool
  | [] => false
  | c :: rest => litRevQ.isPrefixOf (c :: rest) || revQHas rest

/-- Does `?cb=<digit>` occur in `s`? -/
def cbHas : List Char → Bool
  | [] => false
  | c :: rest => cbMatch (c :: rest) || cbHas rest

/-- Does the gangs smart-crop pattern match anywhere in `s`? -/
def smartHas : List Char → Bool
  | [] => false
  | c :: rest => smartMatch (c :: rest) || smartHas rest


/-! ## Lemmas about the canonicalizer substitutions -/

theorem scaleSubF_noop : ∀ (fuel : Nat) (s : List Char), scaleHas s = false → scaleSubF fuel s = s := by
  intro fuel
  induction fuel with
  | zero => intro s _; rfl
  | succ n ih =>
    intro s h
    cases s with
    | nil => rfl
    | cons c rest =>
      simp only [scaleHas, Bool.or_eq_false_iff] at h
      simp [scaleSubF, h.1, ih rest h.2]

theorem cbSubF_noop : ∀ (fuel : Nat) (s : List Char), cbHas s = false → cbSubF fuel s = s := by
  intro fuel
  induction fuel with
  | zero => intro s _; rfl
  | succ n ih =>
    intro s h
    cases s with
    | nil => rfl
    | cons c rest =>
      simp only [cbHas, Bool.or_eq_false_iff] at h
      simp [cbSubF, h.1, ih rest h.2]

theorem scaleSub_noop (s : List Char) (h : scaleHas s = false) : scaleSub s = s :=
  scaleSubF_noop _ s h

theorem cbSub_noop (s : List Char) (h : cbHas s = false) : cbSub s = s :=
  cbSubF_noop _ s h

theorem revQSub_noop : ∀ (s : List Char), revQHas s = false → revQSub s = s := by
  intro s
  induction s with
  | nil => intro _; rfl
  | cons c rest ih =>
    intro h
    simp only [revQHas, Bool.or_eq_false_iff] at h
    simp [revQSub, h.1, ih h.2]

theorem smartSubF_noop : ∀ (fuel : Nat) (s : List Char), smartHas s = false → smartSubF fuel s = s := by
  intro fuel
  induction fuel with
  | zero => intro s _; rfl
  | succ n ih =>
    intro s h
    cases s with
    | nil => rfl
    | cons c rest =>
      simp only [smartHas, Bool.or_eq_false_iff] at h
      simp [smartSubF, h.1, ih rest h.2]

theorem smartSub_noop (s : List Char) (h : smartHas s = false) : smartSub s = s :=
  smartSubF_noop _ s h

theorem cbTailSub_noop : ∀ (s : List Char), cbHas s = false → cbTailSub s = s := by
  intro s
  induction s with
  | nil => intro _; rfl
  | cons c rest ih =>
    intro h
    simp only [cbHas, Bool.or_eq_false_iff] at h
    simp [cbTailSub, h.1, ih h.2]

theorem scaleSubF_cons_ne (fuel : Nat) (c : Char) (s : List Char) (h : c ≠ '/') :
    scaleSubF (fuel + 1) (c :: s) = c :: scaleSubF fuel s := by
  have hne : ('/' == c) = false := beq_eq_false_iff_ne.mpr (Ne.symm h)
  have hm : scaleMatch (c :: s) = false := by
    have hl : litScale = '/' :: "revision/latest/scale-to-width-down/".data := rfl
    rw [scaleMatch, hl]
    simp [List.isPrefixOf, hne]
  simp [scaleSubF, hm]

theorem cbSubF_cons_ne (fuel : Nat) (c : Char) (s : List Char) (h : c ≠ '?') :
    cbSubF (fuel + 1) (c :: s) = c :: cbSubF fuel s := by
  have hne : ('?' == c) = false := beq_eq_false_iff_ne.mpr (Ne.symm h)
  have hm : cbMatch (c :: s) = false := by
    have hl : litCb = '?' :: "cb=".data := rfl
    rw [cbMatch, hl]
    simp [List.isPrefixOf, hne]
  simp [cbSubF, hm]

theorem revQSub_cons_ne (c : Char) (s : List Char) (h : c ≠ '/') :
    revQSub (c :: s) = c :: revQSub s := by
  have hne : ('/' == c) = false := beq_eq_false_iff_ne.mpr (Ne.symm h)
  have hm : litRevQ.isPrefixOf (c :: s) = false := by
    have hl : litRevQ = '/' :: "revision/latest?".data := rfl
    rw [hl]
    simp [List.isPrefixOf, hne]
  simp [revQSub, hm]

theorem smartSubF_cons_ne (fuel : Nat) (c : Char) (s : List Char) (h : c ≠ '/') :
    smartSubF (fuel + 1) (c :: s) = c :: smartSubF fuel s := by
  have hne : ('/' == c) = false := beq_eq_false_iff_ne.mpr (Ne.symm h)
  have hm : smartMatch (c :: s) = false := by
    have hl : litSmart = '/' :: "revision/latest/smart/".data := rfl
    rw [smartMatch, hl]
    simp [List.isPrefixOf, hne]
  simp [smartSubF, hm]

theorem cbTailSub_cons_ne (c : Char) (s : List Char) (h : c ≠ '?') :
    cbTailSub (c :: s) = c :: cbTailSub s := by
  have hne : ('?' == c) = false := beq_eq_false_iff_ne.mpr (Ne.symm h)
  have hm : cbMatch (c :: s) = false := by
    have hl : litCb = '?' :: "cb=".data := rfl
    rw [cbMatch, hl]
    simp [List.isPrefixOf, hne]
  simp [cbTailSub, hm]

theorem scaleSub_https (r : List Char) :
    scaleSub ("https:".data ++ r) = "https:".data ++ scaleSub r := by
  have h6 : ("https:".data ++ r).length = r.length + 1 + 1 + 1 + 1 + 1 + 1 := by
    simp [List.length_append]
  show scaleSubF ("https:".data ++ r).length ("https:".data ++ r) = _
  rw [h6]
  show scaleSubF _ ('h' :: 't' :: 't' :: 'p' :: 's' :: ':' :: r) = _
  rw [scaleSubF_cons_ne _ _ _ (by decide), scaleSubF_cons_ne _ _ _ (by decide),
      scaleSubF_cons_ne _ _ _ (by decide), scaleSubF_cons_ne _ _ _ (by decide),
      scaleSubF_cons_ne _ _ _ (by decide), scaleSubF_cons_ne _ _ _ (by decide)]
  rfl

theorem cbSub_https (r : List Char) :
    cbSub ("https:".data ++ r) = "https:".data ++ cbSub r := by
  have h6 : ("https:".data ++ r).length = r.length + 1 + 1 + 1 + 1 + 1 + 1 := by
    simp [List.length_append]
  show cbSubF ("https:".data ++ r).length ("https:".data ++ r) = _
  rw [h6]
  show cbSubF _ ('h' :: 't' :: 't' :: 'p' :: 's' :: ':' :: r) = _
  rw [cbSubF_cons_ne _ _ _ (by decide), cbSubF_cons_ne _ _ _ (by decide),
      cbSubF_cons_ne _ _ _ (by decide), cbSubF_cons_ne _ _ _ (by decide),
      cbSubF_cons_ne _ _ _ (by decide), cbSubF_cons_ne _ _ _ (by decide)]
  rfl

theorem revQSub_https (r : List Char) :
    revQSub ("https:".data ++ r) = "https:".data ++ revQSub r := by
  show revQSub ('h' :: 't' :: 't' :: 'p' :: 's' :: ':' :: r) = _
  rw [revQSub_cons_ne _ _ (by decide), revQSub_cons_ne _ _ (by decide),
      revQSub_cons_ne _ _ (by decide), revQSub_cons_ne _ _ (by decide),
      revQSub_cons_ne _ _ (by decide), revQSub_cons_ne _ _ (by decide)]
  rfl

theorem smartSub_https (r : List Char) :
    smartSub ("https:".data ++ r) = "https:".data ++ smartSub r := by
  have h6 : ("https:".data ++ r).length = r.length + 1 + 1 + 1 + 1 + 1 + 1 := by
    simp [List.length_append]
  show smartSubF ("https:".data ++ r).length ("https:".data ++ r) = _
  rw [h6]
  show smartSubF _ ('h' :: 't' :: 't' :: 'p' :: 's' :: ':' :: r) = _
  rw [smartSubF_cons_ne _ _ _ (by decide), smartSubF_cons_ne _ _ _ (by decide),
      smartSubF_cons_ne _ _ _ (by decide), smartSubF_cons_ne _ _ _ (by decide),
      smartSubF_cons_ne _ _ _ (by decide), smartSubF_cons_ne _ _ _ (by decide)]
  rfl

theorem cbTailSub_https (r : List Char) :
    cbTailSub ("https:".data ++ r) = "https:".data ++ cbTailSub r := by
  show cbTailSub ('h' :: 't' :: 't' :: 'p' :: 's' :: ':' :: r) = _
  rw [cbTailSub_cons_ne _ _ (by decide), cbTailSub_cons_ne _ _ (by decide),
      cbTailSub_cons_ne _ _ (by decide), cbTailSub_cons_ne _ _ (by decide),
      cbTailSub_cons_ne _ _ (by decide), cbTailSub_cons_ne _ _ (by decide)]
  rfl

theorem clean_inv {u c : String} (h : clean_image_url u = some c) :
    hasImageExt c.data = true ∧
    c.data = cbSub (revQSub (scaleSub
      (if "//".data.isPrefixOf u.data then "https:".data ++ u.data else u.data))) := by
  simp only [clean_image_url] at h
  split at h
  · simp at h
  · split at h
    · rename_i hpre
      split at h
      · rename_i hext
        injection h with h'
        subst h'
        exact ⟨hext, by rw [if_pos hpre]⟩
      · simp at h
    · rename_i hpre
      split at h
      · rename_i hext
        injection h with h'
        subst h'
        refine ⟨hext, ?_⟩
        rw [if_neg hpre]
      · simp at h

theorem gangs_clean_inv {u c : String} (h : gangs_clean_image_url u = some c) :
    hasImageExt c.data = true ∧
    c.data = cbTailSub (smartSub (scaleSub
      (if "//".data.isPrefixOf u.data then "https:".data ++ u.data else u.data))) := by
  simp only [gangs_clean_image_url] at h
  split at h
  · simp at h
  · split at h
    · rename_i hpre
      split at h
      · rename_i hext
        injection h with h'
        subst h'
        exact ⟨hext, by rw [if_pos hpre]⟩
      · simp at h
    · rename_i hpre
      split at h
      · rename_i hext
        injection h with h'
        subst h'
        refine ⟨hext, ?_⟩
        rw [if_neg hpre]
      · simp at h

/-- Counterexample to C6 as stated, for both canonicalizers: the character
canonicalizer succeeds on `"?cb=1//a.png"`, returning `"//a.png"`, but
canonicalizing that result again does not return it (the cache-buster
deletion exposed a leading `//`, which the second pass turns into
`https://a.png`); the gangs canonicalizer succeeds on a URL with a doubled
resize segment, returning a string that still contains a live resize match,
which a second pass rewrites again. -/
theorem clean_image_url_not_idempotent :
    (clean_image_url "?cb=1//a.png" = some "//a.png" ∧
      clean_image_url "//a.png" ≠ some "//a.png") ∧
    (gangs_clean_image_url
        "a.png/revision/latest/scale-to-width-down/9/scale-to-width-down/7"
        = some "a.png/revision/latest/scale-to-width-down/7" ∧
      gangs_clean_image_url "a.png/revision/latest/scale-to-width-down/7"
        ≠ some "a.png/revision/latest/scale-to-width-down/7") := by
  refine ⟨⟨by decide, by decide⟩, by decide, by decide⟩

/-- C6 (amended): for both canonicalizers, re-canonicalizing a
canonicalization result returns it unchanged whenever that result is
artifact-free — it does not start with `//` and contains no residual
resize segment, no residual `?cb=<digits>` marker, and (character
canonicalizer) no `/revision/latest?` marker respectively (gangs
canonicalizer) no `/revision/latest/smart/...?` marker; one pass can leave
such artifacts only on inputs that already interleave them.  Moreover, in
both canonicalizers a protocol-relative URL gains the `https:` scheme, and
a URL with a resize path segment loses that segment. -/
theorem clean_image_url_canonical_props :
    (∀ u c : String, clean_image_url u = some c →
      "//".data.isPrefixOf c.data = false →
      scaleHas c.data = false → revQHas c.data = false → cbHas c.data = false →
      clean_image_url c = some c)
    ∧ (∀ u c : String, gangs_clean_image_url u = some c →
      "//".data.isPrefixOf c.data = false →
      scaleHas c.data = false → smartHas c.data = false → cbHas c.data = false →
      gangs_clean_image_url c = some c)
    ∧ (∀ u c : String, clean_image_url u = some c →
        "//".data.isPrefixOf u.data = true →
        "https:".data.isPrefixOf c.data = true)
    ∧ (∀ u c : String, gangs_clean_image_url u = some c →
        "//".data.isPrefixOf u.data = true →
        "https:".data.isPrefixOf c.data = true)
    ∧ clean_image_url "https://x.png/revision/latest/scale-to-width-down/185"
        = some "https://x.png/revision/latest"
    ∧ gangs_clean_image_url "https://x.png/revision/latest/scale-to-width-down/185"
        = some "https://x.png/revision/latest" := by
  refine ⟨?_, ?_, ?_, ?_, by decide, by decide⟩
  · intro u c h h2 h3 h4 h5
    obtain ⟨hext, -⟩ := clean_inv h
    have hcne : c ≠ "" := by
      intro hc
      subst hc
      exact absurd hext (by decide)
    simp only [clean_image_url]
    rw [if_neg hcne,
        if_neg (show ¬("//".data.isPrefixOf c.data = true) by simp [h2]),
        scaleSub_noop _ h3, revQSub_noop _ h4, cbSub_noop _ h5, if_pos hext]
  · intro u c h h2 h3 h4 h5
    obtain ⟨hext, -⟩ := gangs_clean_inv h
    have hcne : c ≠ "" := by
      intro hc
      subst hc
      exact absurd hext (by decide)
    simp only [gangs_clean_image_url]
    rw [if_neg hcne,
        if_neg (show ¬("//".data.isPrefixOf c.data = true) by simp [h2]),
        scaleSub_noop _ h3, smartSub_noop _ h4, cbTailSub_noop _ h5, if_pos hext]
  · intro u c h hpre
    obtain ⟨-, hc⟩ := clean_inv h
    rw [if_pos hpre, scaleSub_https, revQSub_https, cbSub_https] at hc
    rw [hc]
    exact List.isPrefixOf_iff_prefix.mpr (List.prefix_append _ _)
  · intro u c h hpre
    obtain ⟨-, hc⟩ := gangs_clean_inv h
    rw [if_pos hpre, scaleSub_https, smartSub_https, cbTailSub_https] at hc
    rw [hc]
    exact List.isPrefixOf_iff_prefix.mpr (List.prefix_append _ _)

/-- Witness for the amended C6 at concrete canonical URLs, exercising the
artifact-free idempotence and the https-gain parts for both
canonicalizers. -/
theorem clean_image_url_canonical_props_witness :
    clean_image_url "https://a.png" = some "https://a.png" ∧
    gangs_clean_image_url "https://a.png" = some "https://a.png" ∧
    "https:".data.isPrefixOf ("https://b.png" : String).data = true ∧
    "https:".data.isPrefixOf ("https://c.png" : String).data = true := by
  refine ⟨?_, ?_, ?_, ?_⟩
  · exact clean_image_url_canonical_props.1 "https://a.png" "https://a.png" (by decide)
      (by decide) (by decide) (by decide) (by decide)
  · exact clean_image_url_canonical_props.2.1 "https://a.png" "https://a.png" (by decide)
      (by decide) (by decide) (by decide) (by decide)
  · exact clean_image_url_canonical_props.2.2.1 "//b.png" "https://b.png" (by decide)
      (by decide)
  · exact clean_image_url_canonical_props.2.2.2.1 "//c.png" "https://c.png" (by decide)
      (by decide)

/-- Curated set of known female characters (`CyberpunkScraper.KNOWN_FEMALES`). -/
def KNOWN_FEMALES : List String :=
  ["judy alvarez", "panam palmer", "alt cunningham", "rogue amendiares",
   "evelyn parker", "misty olszewski", "claire russell", "hanako arasaka",
   "regina jones", "meredith stout", "blue moon", "lizzy wizzy",
   "songbird", "alex", "alena xenakis", "ana friedman", "rita wheeler",
   "sandra dorsett", "yorinobu", "michiko arasaka", "t-bug"]

/-- The candidate record a scrape produces for one character page (the
`result` dict of `CyberpunkScraper.scrape_character`).  Fields that Python
may hold as `None` are `Option`s. -/
structure CharData where
  name : String := ""
  gender : Option String := none
  affiliation : Option String := none
  description : Option String := none
  occupation : Option String := none
  status : Option String := none
  wiki_url : Option String := none

/-- Abstraction of a parsed `.portable-infobox` element: `dataValue src` is
the stripped text of the `[data-source="src"] .pi-data-value` cell when that
selector matches, and `rows` lists the `.pi-data` rows as optional
label/value cell texts (a `none` component means the cell is absent). -/
structure Infobox where
  dataValue : String → Option String
  rows : List (Option String × Option String)

/-- Gender classification of one infobox value text, as in
`_detect_gender` step 3 (scraper.py lines 316-323); note the Python
operator precedence: `male or (man and not woman) or masculino`. -/
def classifySelectorValue (txt : String) : Option String :=
  let t := pyLower txt
  if pyIn "female" t || pyIn "woman" t || pyIn "feminino" t then some "Female"
  else if pyIn "male" t || (pyIn "man" t && !(pyIn "woman" t)) || pyIn "masculino" t then
    some "Male"
  else none

/-- First of the four gender selectors that classifies (scraper.py lines
310-323); a selector that matches but classifies neither way is skipped. -/
def genderFromSelectors (ib : Infobox) : Option String :=
  ["gender", "sex", "Gender", "Sex"].findSome? fun sel =>
    (ib.dataValue sel).bind classifySelectorValue

/-- Scan of all `.pi-data` rows for a gender-ish label (scraper.py lines
326-336); rows missing a label or value cell are skipped. -/
def genderFromRows (ib : Infobox) : Option String :=
  ib.rows.findSome? fun r =>
    match r with
    | (some label, some value) =>
      let lt := pyLower label
      if pyIn "gender" lt || pyIn "sex" lt then
        let vt := pyLower value
        if pyIn "female" vt || pyIn "woman" vt then some "Female"
        else if pyIn "male" vt || pyIn "man" vt then some "Male"
        else none
      else none
    | _ => none

/-- Combined infobox signal of `_detect_gender` step 3: selectors first,
then the row scan. -/
def infobox_gender_signal (ib : Infobox) : Option String :=
  match genderFromSelectors ib with
  | some g => some g
  | none => genderFromRows ib

/-- Lower-cased description used by the pronoun heuristics
(`desc = char_data.get('description', '') or ''` then `.lower()`). -/
def descLower (cd : CharData) : String := pyLower (cd.description.getD "")

/-- Count of female-indicating pronoun tokens (scraper.py line 343). -/
def femalePronounCount (dl : String) : Nat :=
  pyCount dl " she " + pyCount dl " her " + pyCount dl " herself "

/-- Count of male-indicating pronoun tokens (scraper.py line 344). -/
def malePronounCount (dl : String) : Nat :=
  pyCount dl " he " + pyCount dl " him " + pyCount dl " himself " + pyCount dl " his "

/-- Embedding of `CyberpunkScraper._detect_gender` (scraper.py lines
290-357): the gender cascade.  `infobox` is
`soup.select_one('.portable-infobox')`. -/
def detect_gender (char_data : CharData) (infobox : Option Infobox) (title : String) :
    String :=
  if pyTruthy char_data.gender &&
      (char_data.gender.getD "" == "Male" || char_data.gender.getD "" == "Female") then
    char_data.gender.getD ""
  else if KNOWN_FEMALES.contains (pyLower title) then "Female"
  else if KNOWN_FEMALES.any (fun known =>
      pyIn known (pyLower title) || pyIn (pyLower title) known) then "Female"
  else
    match infobox.bind infobox_gender_signal with
    | some g => g
    | none =>
      let dl := descLower char_data
      let fp := femalePronounCount dl
      let mp := malePronounCount dl
      if fp > mp ∧ fp ≥ 2 then "Female"
      else if mp > fp ∧ mp ≥ 2 then "Male"
      else if pyIn "grandmother" dl || pyIn "mother of" dl || pyIn "wife of" dl then
        "Female"
      else if pyIn "grandfather" dl || pyIn "father of" dl || pyIn "husband of" dl then
        "Male"
      else "Unknown"

/-- Embedding of the gender field of `CyberpunkScraper._parse_infobox`
(scraper.py lines 359-388): the loop breaks at the first data source whose
cell has non-empty text, and only that text is normalized ("female"/"woman"
win before the "male" substring test, so "Female" classifies female); a
text that normalizes to neither yields no structured gender. -/
def parse_infobox_gender (ib : Infobox) : Option String :=
  match ["gender", "sex", "Gender", "Sex"].findSome?
      (fun src => (ib.dataValue src).bind (fun v => if v = "" then none else some v)) with
  | none => none
  | some value =>
    if pyIn "female" (pyLower value) || pyIn "woman" (pyLower value) then some "Female"
    else if pyIn "male" (pyLower value) then some "Male"
    else none

theorem parse_infobox_gender_cases (ib : Infobox) (g : String)
    (h : parse_infobox_gender ib = some g) : g = "Male" ∨ g = "Female" := by
  unfold parse_infobox_gender at h
  split at h
  · exact absurd h (by simp)
  · split at h
    · right; exact (Option.some.injEq _ _).mp h.symm
    · split at h
      · left; exact (Option.some.injEq _ _).mp h.symm
      · exact absurd h (by simp)

/-- C4: a structured gender already resolved from the info box wins the
cascade outright: whatever the description, the title, and the rest of the
info box contain, `_detect_gender` returns the structured value. -/
theorem detect_gender_structured_wins (ib : Infobox) (cd : CharData) (title g : String)
    (h : parse_infobox_gender ib = some g) :
    detect_gender { cd with gender := some g } (some ib) title = g := by
  have hg : g = "Male" ∨ g = "Female" := parse_infobox_gender_cases ib g h
  have hcond : (pyTruthy (some g) &&
      ((some g).getD "" == "Male" || (some g).getD "" == "Female")) = true := by
    rcases hg with hg | hg <;> subst hg <;> decide
  unfold detect_gender
  rw [if_pos hcond]
  rfl

/-- Concrete infobox with data source `sex` equal to `"Female"`. -/
def sexFemaleBox : Infobox :=
  { dataValue := fun s => if s = "sex" then some "Female" else none, rows := [] }

/-- Description whose pronoun statistics favour male. -/
def maleLeaningDesc : String := " he said he was his own him "

/-- Concrete candidate record used by the C4 witness. -/
def vCharData : CharData := { name := "V", description := some maleLeaningDesc }

/-- Witness for C4: with info-box field `sex = "Female"` and a description
whose pronoun counts favour male, the cascade still returns `Female`. -/
theorem detect_gender_structured_wins_witness :
    malePronounCount (descLower { vCharData with gender := some "Female" }) ≥ 2 ∧
    detect_gender { vCharData with gender := some "Female" } (some sexFemaleBox) "V"
      = "Female" := by
  constructor
  · decide
  · exact detect_gender_structured_wins sexFemaleBox vCharData "V" "Female" (by decide)


/-- C5: the pronoun-frequency rule of the gender cascade fires only when
one pronoun class has at least two occurrences and strictly more than the
other; when neither class reaches that threshold and no earlier signal
(structured gender, known-name match, info-box hit) and no fixed phrase is
present, the cascade returns `Unknown`. -/
theorem detect_gender_pronoun_threshold (cd : CharData) (ib : Option Infobox)
    (title : String)
    (h1 : (pyTruthy cd.gender &&
      (cd.gender.getD "" == "Male" || cd.gender.getD "" == "Female")) = false)
    (h2 : KNOWN_FEMALES.contains (pyLower title) = false)
    (h3 : (KNOWN_FEMALES.any fun known =>
      pyIn known (pyLower title) || pyIn (pyLower title) known) = false)
    (h4 : ib.bind infobox_gender_signal = none)
    (hf : ¬(femalePronounCount (descLower cd) > malePronounCount (descLower cd) ∧
            femalePronounCount (descLower cd) ≥ 2))
    (hm : ¬(malePronounCount (descLower cd) > femalePronounCount (descLower cd) ∧
            malePronounCount (descLower cd) ≥ 2))
    (h5 : (pyIn "grandmother" (descLower cd) || pyIn "mother of" (descLower cd) ||
           pyIn "wife of" (descLower cd)) = false)
    (h6 : (pyIn "grandfather" (descLower cd) || pyIn "father of" (descLower cd) ||
           pyIn "husband of" (descLower cd)) = false) :
    detect_gender cd ib title = "Unknown" := by
  unfold detect_gender
  rw [if_neg (by simp [h1]), if_neg (by simpa using h2), if_neg (by simp [h3]), h4]
  rw [if_neg hf, if_neg hm, if_neg (by simp [h5]), if_neg (by simp [h6])]

/-- Concrete candidate record used by the C5 witness: one female pronoun,
no male pronoun, no fixed phrase. -/
def oneShePronounData : CharData :=
  { name := "Zzq", description := some " she is a nomad. " }

/-- Witness for C5: a description with exactly one female pronoun and zero
male pronouns, and no other signal, yields `Unknown`. -/
theorem detect_gender_pronoun_threshold_witness :
    femalePronounCount (descLower oneShePronounData) = 1 ∧
    malePronounCount (descLower oneShePronounData) = 0 ∧
    detect_gender oneShePronounData none "Zzq" = "Unknown" := by
  refine ⟨by decide, by decide, ?_⟩
  exact detect_gender_pronoun_threshold oneShePronounData none "Zzq" (by decide)
    (by decide) (by decide) rfl (by decide) (by decide) (by decide) (by decide)

/-! ## The info.json reconciliation of `CyberpunkScraper.process_character` -/

/-- Contents of an existing per-character `info.json` Override Record, as
read back by `process_character` (absent file or unreadable JSON is the
empty record). -/
structure InfoJson where
  name : Option String := none
  gender : Option String := none
  affiliation : Option String := none
  description : Option String := none
  wiki_url : Option String := none
  occupation : Option String := none
  status : Option String := none

/-- The `new_info` dict written back to `info.json`. -/
structure NewInfo where
  name : String
  gender : String
  affiliation : String
  description : String
  has_images : Bool
  wiki_url : String
  occupation : Option String
  status : Option String

/-- Embedding of the merge step of `CyberpunkScraper.process_character`
(scraper.py lines 598-611): affiliation prefers the fresh scrape value,
description prefers the existing override value, each falling back through
Python `or` chains to a default. -/
def process_character_info (char_data : CharData) (existing_info : InfoJson)
    (downloaded_images : List String) : NewInfo :=
  { name := char_data.name
    gender := char_data.gender.getD "Unknown"
    affiliation := pyOrD (pyOr char_data.affiliation existing_info.affiliation) "Unknown"
    description :=
      pyOrD (pyOr existing_info.description char_data.description) "Sem descrição disponível."
    has_images := downloaded_images.length > 0
    wiki_url := char_data.wiki_url.getD ""
    occupation := if pyTruthy char_data.occupation then char_data.occupation else none
    status := if pyTruthy char_data.status then char_data.status else none }

/-- C3: an existing override description wins over a freshly scraped one;
the scraped description is used only when the override description is empty
or absent. -/
theorem process_character_description_override (cd : CharData) (ei : InfoJson)
    (imgs : List String) :
    (pyTruthy ei.description = true →
      (process_character_info cd ei imgs).description = ei.description.getD "") ∧
    (pyTruthy ei.description = false → pyTruthy cd.description = true →
      (process_character_info cd ei imgs).description = cd.description.getD "") := by
  constructor
  · intro h
    simp [process_character_info, pyOrD, pyOr, h]
  · intro h h'
    simp [process_character_info, pyOrD, pyOr, h, h']

/-- Scrape candidate used by the C2/C3 witnesses and counterexample. -/
def scrapedCharData : CharData :=
  { name := "X", affiliation := some "Valentinos", description := some "Scraped text" }

/-- Override Record used by the C2/C3 witnesses and counterexample. -/
def overrideInfoJson : InfoJson :=
  { affiliation := some "Maelstrom", description := some "Hand-written text" }

/-- Witness for C3: override description `"Hand-written text"` beats scraped
`"Scraped text"`, and an empty override lets the scraped text through. -/
theorem process_character_description_override_witness :
    (process_character_info scrapedCharData overrideInfoJson []).description
      = "Hand-written text" ∧
    (process_character_info scrapedCharData { } []).description = "Scraped text" := by
  constructor
  · exact (process_character_description_override scrapedCharData overrideInfoJson []).1
      (by decide)
  · exact (process_character_description_override scrapedCharData { } []).2
      (by decide) (by decide)

/-- Counterexample to C2: the Override Record has the non-empty affiliation
`"Maelstrom"`, the fresh scrape candidate carries `"Valentinos"`, and the
reconciled record keeps the scraped value, not the override value. -/
theorem process_character_affiliation_counterexample :
    pyTruthy overrideInfoJson.affiliation = true ∧
    (process_character_info scrapedCharData overrideInfoJson []).affiliation
      = "Valentinos" ∧
    (process_character_info scrapedCharData overrideInfoJson []).affiliation
      ≠ "Maelstrom" := by
  refine ⟨by decide, by decide, by decide⟩

/-- C2 (amended): for `affiliation` the fresh scrape wins: a non-empty
scraped affiliation is kept; the existing override affiliation is used only
when the scraped one is empty or absent; when both are empty the default is
`"Unknown"`. -/
theorem process_character_affiliation_scrape_wins (cd : CharData) (ei : InfoJson)
    (imgs : List String) :
    (pyTruthy cd.affiliation = true →
      (process_character_info cd ei imgs).affiliation = cd.affiliation.getD "") ∧
    (pyTruthy cd.affiliation = false → pyTruthy ei.affiliation = true →
      (process_character_info cd ei imgs).affiliation = ei.affiliation.getD "") ∧
    (pyTruthy cd.affiliation = false → pyTruthy ei.affiliation = false →
      (process_character_info cd ei imgs).affiliation = "Unknown") := by
  refine ⟨?_, ?_, ?_⟩
  · intro h
    simp [process_character_info, pyOrD, pyOr, h]
  · intro h h'
    simp [process_character_info, pyOrD, pyOr, h, h']
  · intro h h'
    simp [process_character_info, pyOrD, pyOr, h, h']

/-- Witness for the amended C2: the scraped `"Valentinos"` is kept, and with
an empty scraped affiliation the override `"Maelstrom"` is used. -/
theorem process_character_affiliation_scrape_wins_witness :
    (process_character_info scrapedCharData overrideInfoJson []).affiliation
      = "Valentinos" ∧
    (process_character_info { name := "X" } overrideInfoJson []).affiliation
      = "Maelstrom" := by
  constructor
  · exact (process_character_affiliation_scrape_wins scrapedCharData overrideInfoJson []).1
      (by decide)
  · exact ((process_character_affiliation_scrape_wins { name := "X" } overrideInfoJson []).2.1
      (by decide) (by decide))


/-! ## The catalog generator (`gerador.py`) -/

/-- Root of the image tree (`SOURCE_DIR`). -/
def SOURCE_DIR : String := "images"

/-- Base URL for images on GitHub Pages (`BASE_IMAGE_URL`). -/
def BASE_IMAGE_URL : String :=
  "https://jose-pires-neto.github.io/Cyberpunk-2077-API/images"

/-- Image filename extensions accepted by the generator
(`VALID_EXTENSIONS`). -/
def VALID_EXTENSIONS : List String := [".png", ".jpg", ".jpeg", ".gif", ".webp"]

/-- Abstraction of the filesystem the generator walks: path existence,
directory listing (in arbitrary on-disk order; the generator always sorts),
and the file/directory tests. -/
structure FS where
  pathExists : String → Bool
  listdir : String → List String
  isFile : String → Bool
  isDir : String → Bool

/-- POSIX `os.path.join` for the relative component paths the generator
builds. -/
def pjoin (a b : String) : String := a ++ "/" ++ b

/-- Extension part of `os.path.splitext` for a plain filename (no path
separators): the suffix from the last dot, provided some earlier character
of the name is not a dot (leading dots do not start an extension). -/
def splitextExt (fn : String) : String :=
  let cs := fn.data
  match cs.reverse.findIdx? (· = '.') with
  | none => ""
  | some i =>
    let dotIdx := cs.length - 1 - i
    if (cs.take dotIdx).any (· ≠ '.') then String.mk (cs.drop dotIdx) else ""

/-- Embedding of `get_image_list` (gerador.py lines 27-39): sorted directory
listing, keeping regular files whose lower-cased extension is a known image
extension. -/
def get_image_list (fs : FS) (folder_path : String) : List String :=
  if fs.pathExists folder_path then
    (pySorted (fs.listdir folder_path)).filter fun filename =>
      fs.isFile (pjoin folder_path filename) &&
        VALID_EXTENSIONS.contains (pyLower (splitextExt filename))
  else []

/-- Embedding of `os.path.relpath(folder_path, SOURCE_DIR)` for the paths
the generator builds, which all live strictly below `SOURCE_DIR`. -/
def relpathUnderSource (p : String) : String :=
  if (SOURCE_DIR ++ "/").data.isPrefixOf p.data then p.drop (SOURCE_DIR.length + 1) else p

/-- Embedding of `get_image_urls` (gerador.py lines 42-45). -/
def get_image_urls (folder_path : String) (images : List String) : List String :=
  images.map fun img =>
    BASE_IMAGE_URL ++ "/" ++ relpathUnderSource folder_path ++ "/" ++ img

/-- Python `str.title()` (ASCII): a letter is upper-cased when the previous
character is not a letter, lower-cased otherwise. -/
def pyTitle (s : String) : String :=
  String.mk (s.data.foldl
    (fun (acc : List Char × Bool) c =>
      ((acc.1 ++ [if acc.2 then c.toLower else c.toUpper]), c.isAlpha))
    ([], false)).1

/-- Embedding of `format_name` (gerador.py lines 48-50). -/
def format_name (folder_name : String) : String :=
  pyTitle (String.mk (folder_name.data.map fun c => if c = '_' then ' ' else c))

/-- Fields of a character entry as the generator reads them, both from a
per-entity `info.json` Override Record and from the previous aggregate
catalog (`characters.json`).  `images` is carried to state that the
generator never reads it.  A JSON `null` and an absent key are both
modelled as `none` (both are falsy in every use here). -/
structure CharInfo where
  name : Option String := none
  gender : Option String := none
  description : Option String := none
  affiliation : Option String := none
  occupation : Option String := none
  status : Option String := none
  wiki_url : Option String := none
  images : Option (List String) := none

/-- One record of the generated `characters.json`.  Optional fields are
present only when truthy, as in the source. -/
structure CharRec where
  id : Nat
  name : String
  gender : String
  directory : String
  has_images : Bool
  images : List String
  description : String
  affiliation : String
  occupation : Option String
  status : Option String
  wiki_url : Option String

/-- Keep a merged optional field only when it is truthy (`if value:
char_data[field] = value`). -/
def keepTruthy (o : Option String) : Option String := if pyTruthy o then o else none

/-- The characters root `images/characters/sex`. -/
def charactersBase : String := pjoin (pjoin SOURCE_DIR "characters") "sex"

/-- Loop body of `scan_characters` for one character folder (gerador.py
lines 104-148): scan images afresh, load `info.json`, look up the old
catalog entry by formatted name and then by the `info.json` name, and merge
with priority info.json, then old data, then defaults.  The `images` field
is always the fresh scan result. -/
def build_char (fs : FS) (loadInfo : String → CharInfo)
    (existing : String → Option CharInfo) (gender char_folder : String) (idc : Nat) :
    CharRec :=
  let char_full_path := pjoin (pjoin charactersBase gender) char_folder
  let images := get_image_list fs char_full_path
  let image_urls := get_image_urls char_full_path images
  let formatted_name := format_name char_folder
  let info_data := loadInfo char_full_path
  let old_data0 := (existing formatted_name).getD { }
  let old_data :=
    if pyTruthy info_data.name ∧ (existing (info_data.name.getD "")).isSome then
      (existing (info_data.name.getD "")).getD old_data0
    else old_data0
  { id := idc
    name := pyOrD (pyOr info_data.name old_data.name) formatted_name
    gender := pyOrD (pyOr info_data.gender old_data.gender) (pyTitle gender)
    directory := char_folder
    has_images := image_urls.length > 0
    images := image_urls
    description :=
      pyOrD (pyOr info_data.description old_data.description) "Sem descrição disponível."
    affiliation := pyOrD (pyOr info_data.affiliation old_data.affiliation) "Unknown"
    occupation := keepTruthy (pyOr info_data.occupation old_data.occupation)
    status := keepTruthy (pyOr info_data.status old_data.status)
    wiki_url := keepTruthy (pyOr info_data.wiki_url old_data.wiki_url) }

/-- One step of the `scan_characters` inner loop: non-directories are
skipped, directories append a record and advance the id counter. -/
def scanCharFolder (fs : FS) (loadInfo : String → CharInfo)
    (existing : String → Option CharInfo) (gender : String)
    (acc : List CharRec × Nat) (char_folder : String) : List CharRec × Nat :=
  if fs.isDir (pjoin (pjoin charactersBase gender) char_folder) then
    (acc.1 ++ [build_char fs loadInfo existing gender char_folder acc.2], acc.2 + 1)
  else acc

/-- One step of the `scan_characters` outer loop over the fixed gender
buckets `male`, `female`, `unknown`: a missing bucket is skipped, an
existing one is walked in sorted folder order. -/
def scanGender (fs : FS) (loadInfo : String → CharInfo)
    (existing : String → Option CharInfo) (acc : List CharRec × Nat)
    (gender : String) : List CharRec × Nat :=
  if fs.pathExists (pjoin charactersBase gender) then
    (pySorted (fs.listdir (pjoin charactersBase gender))).foldl
      (scanCharFolder fs loadInfo existing gender) acc
  else acc

/-- Embedding of `scan_characters` (gerador.py lines 79-151).  `loadInfo`
is `load_info_json` on a folder path and `existing` is the
name-to-old-entry dictionary built by `load_existing_json`. -/
def scan_characters (fs : FS) (loadInfo : String → CharInfo)
    (existing : String → Option CharInfo) : List CharRec :=
  if fs.pathExists charactersBase then
    ((["male", "female", "unknown"]).foldl (scanGender fs loadInfo existing) ([], 1)).1
  else []

/-- Fields of a gang `info.json`/old catalog entry as the generator reads
them.  A JSON `null` and an absent key are both modelled as `none`. -/
structure GangInfo where
  name : Option String := none
  description : Option String := none
  founder : Option String := none
  leader : Option String := none
  hq : Option String := none
  territory : Option String := none
  members_count : Option String := none
  affiliations : Option (List String) := none
  wiki_url : Option String := none
  images : Option (List String) := none

/-- One record of the generated `gangs.json` (fields removed when `None`
are `Option`s here). -/
structure GangRec where
  id : Nat
  name : String
  directory : String
  description : Option String
  founder : Option String
  leader : Option String
  hq : Option String
  territory : Option String
  members_count : Option String
  affiliations : List String
  wiki_url : Option String
  images : List String

/-- The gangs root `images/gangs`. -/
def gangsBase : String := pjoin SOURCE_DIR "gangs"

/-- Loop body of `scan_gangs` for one gang folder (gerador.py lines
169-201). -/
def build_gang (fs : FS) (loadInfo : String → GangInfo)
    (existing : String → Option GangInfo) (gang_folder : String) (idc : Nat) :
    GangRec :=
  let gang_path := pjoin gangsBase gang_folder
  let image_urls := get_image_urls gang_path (get_image_list fs gang_path)
  let formatted_name := format_name gang_folder
  let info_data := loadInfo gang_path
  let old_data := (existing formatted_name).getD { }
  { id := idc
    name := pyOrD (pyOr info_data.name old_data.name) formatted_name
    directory := gang_folder
    description := pyOr info_data.description old_data.description
    founder := info_data.founder
    leader := info_data.leader
    hq := info_data.hq
    territory := info_data.territory
    members_count := info_data.members_count
    affiliations := info_data.affiliations.getD []
    wiki_url := info_data.wiki_url
    images := image_urls }

/-- One step of the `scan_gangs` loop. -/
def scanGangFolder (fs : FS) (loadInfo : String → GangInfo)
    (existing : String → Option GangInfo) (acc : List GangRec × Nat)
    (gang_folder : String) : List GangRec × Nat :=
  if fs.isDir (pjoin gangsBase gang_folder) then
    (acc.1 ++ [build_gang fs loadInfo existing gang_folder acc.2], acc.2 + 1)
  else acc

/-- Embedding of `scan_gangs` (gerador.py lines 154-204). -/
def scan_gangs (fs : FS) (loadInfo : String → GangInfo)
    (existing : String → Option GangInfo) : List GangRec :=
  if fs.pathExists gangsBase then
    ((pySorted (fs.listdir gangsBase)).foldl (scanGangFolder fs loadInfo existing)
      ([], 1)).1
  else []

/-- Fields of a district or subdistrict `info.json`/old catalog entry as
the generator reads them. -/
structure DistInfo where
  name : Option String := none
  description : Option String := none
  danger_level : Option String := none
  wiki_url : Option String := none
  images : Option (List String) := none

/-- One subdistrict entry of the generated `districts.json`. -/
structure SubRec where
  name : String
  description : Option String
  wiki_url : Option String
  images : List String

/-- One record of the generated `districts.json`; `subdistricts` is always
present, possibly empty. -/
structure DistrictRec where
  id : Nat
  name : String
  directory : String
  description : Option String
  danger_level : Option String
  wiki_url : Option String
  images : List String
  subdistricts : List SubRec

/-- The districts root `images/districts`. -/
def districtsBase : String := pjoin SOURCE_DIR "districts"

/-- Loop body for one subdistrict folder (gerador.py lines 240-259). -/
def build_subdistrict (fs : FS) (loadInfo : String → DistInfo)
    (district_path sub_folder : String) : SubRec :=
  let sub_path := pjoin (pjoin district_path "subdistricts") sub_folder
  let sub_info := loadInfo sub_path
  { name := pyOrD sub_info.name (format_name sub_folder)
    description := sub_info.description
    wiki_url := sub_info.wiki_url
    images := get_image_urls sub_path (get_image_list fs sub_path) }

/-- The subdistrict sweep of one district (gerador.py lines 236-259). -/
def scanSubdistricts (fs : FS) (loadInfo : String → DistInfo)
    (district_path : String) : List SubRec :=
  if fs.pathExists (pjoin district_path "subdistricts") then
    ((pySorted (fs.listdir (pjoin district_path "subdistricts"))).filter fun sub_folder =>
      fs.isDir (pjoin (pjoin district_path "subdistricts") sub_folder)).map
      (build_subdistrict fs loadInfo district_path)
  else []

/-- Loop body of `scan_districts` for one district folder (gerador.py lines
222-276). -/
def build_district (fs : FS) (loadInfo : String → DistInfo)
    (existing : String → Option DistInfo) (district_folder : String) (idc : Nat) :
    DistrictRec :=
  let district_path := pjoin districtsBase district_folder
  let image_urls := get_image_urls district_path (get_image_list fs district_path)
  let formatted_name := format_name district_folder
  let info_data := loadInfo district_path
  let old_data := (existing formatted_name).getD { }
  { id := idc
    name := pyOrD (pyOr info_data.name old_data.name) formatted_name
    directory := district_folder
    description := pyOr info_data.description old_data.description
    danger_level := info_data.danger_level
    wiki_url := info_data.wiki_url
    images := image_urls
    subdistricts := scanSubdistricts fs loadInfo district_path }

/-- One step of the `scan_districts` loop. -/
def scanDistrictFolder (fs : FS) (loadInfo : String → DistInfo)
    (existing : String → Option DistInfo) (acc : List DistrictRec × Nat)
    (district_folder : String) : List DistrictRec × Nat :=
  if fs.isDir (pjoin districtsBase district_folder) then
    (acc.1 ++ [build_district fs loadInfo existing district_folder acc.2], acc.2 + 1)
  else acc

/-- Embedding of `scan_districts` (gerador.py lines 207-282). -/
def scan_districts (fs : FS) (loadInfo : String → DistInfo)
    (existing : String → Option DistInfo) : List DistrictRec :=
  if fs.pathExists districtsBase then
    ((pySorted (fs.listdir districtsBase)).foldl
      (scanDistrictFolder fs loadInfo existing) ([], 1)).1
  else []


/-! ## Aggregator lemmas and theorems -/

theorem foldl_inv {α β : Type} (f : β → α → β) (P : β → Prop)
    (h : ∀ b a, P b → P (f b a)) : ∀ (l : List α) (b : β), P b → P (l.foldl f b) := by
  intro l
  induction l with
  | nil => intro b hb; exact hb
  | cons a l' ih => intro b hb; exact ih (f b a) (h b a hb)

theorem foldl_rel {α β : Type} (R : β → β → Prop) (f g : β → α → β)
    (h : ∀ b b' a, R b b' → R (f b a) (g b' a)) :
    ∀ (l : List α) (b b' : β), R b b' → R (l.foldl f b) (l.foldl g b') := by
  intro l
  induction l with
  | nil => intro b b' hb; exact hb
  | cons a l' ih => intro b b' hb; exact ih (f b a) (g b' a) (h b b' a hb)

/-- Invariant of the id counter during a scan: the counter is one past the
number of records emitted so far, and the emitted ids are `1..n`. -/
def idsP {ρ : Type} (idOf : ρ → Nat) (acc : List ρ × Nat) : Prop :=
  acc.2 = acc.1.length + 1 ∧ acc.1.map idOf = List.range' 1 acc.1.length

theorem idsP_append {ρ : Type} (idOf : ρ → Nat) (acc : List ρ × Nat) (r : ρ)
    (h : idsP idOf acc) (hr : idOf r = acc.2) :
    idsP idOf (acc.1 ++ [r], acc.2 + 1) := by
  obtain ⟨h1, h2⟩ := h
  constructor
  · simp [List.length_append]
    omega
  · simp only [List.map_append, List.map_cons, List.map_nil, List.length_append,
      List.length_cons, List.length_nil]
    rw [h2, hr]
    have hc : acc.2 = 1 + 1 * acc.1.length := by omega
    rw [hc]
    exact (@List.range'_concat 1 1 acc.1.length).symm

theorem scanCharFolder_ids (fs : FS) (li : String → CharInfo)
    (ex : String → Option CharInfo) (g : String) (acc : List CharRec × Nat)
    (d : String) (h : idsP (fun r => r.id) acc) :
    idsP (fun r => r.id) (scanCharFolder fs li ex g acc d) := by
  unfold scanCharFolder
  split
  · exact idsP_append _ acc _ h rfl
  · exact h

theorem scanGender_ids (fs : FS) (li : String → CharInfo)
    (ex : String → Option CharInfo) (acc : List CharRec × Nat) (g : String)
    (h : idsP (fun r => r.id) acc) :
    idsP (fun r => r.id) (scanGender fs li ex acc g) := by
  unfold scanGender
  split
  · exact foldl_inv _ _ (scanCharFolder_ids fs li ex g) _ acc h
  · exact h

theorem scanGangFolder_ids (fs : FS) (li : String → GangInfo)
    (ex : String → Option GangInfo) (acc : List GangRec × Nat) (d : String)
    (h : idsP (fun r => r.id) acc) :
    idsP (fun r => r.id) (scanGangFolder fs li ex acc d) := by
  unfold scanGangFolder
  split
  · exact idsP_append _ acc _ h rfl
  · exact h

theorem scanDistrictFolder_ids (fs : FS) (li : String → DistInfo)
    (ex : String → Option DistInfo) (acc : List DistrictRec × Nat) (d : String)
    (h : idsP (fun r => r.id) acc) :
    idsP (fun r => r.id) (scanDistrictFolder fs li ex acc d) := by
  unfold scanDistrictFolder
  split
  · exact idsP_append _ acc _ h rfl
  · exact h

theorem gangs_fold_dirs (fs : FS) (li : String → GangInfo)
    (ex : String → Option GangInfo) :
    ∀ (l : List String) (acc : List GangRec × Nat),
      ((l.foldl (scanGangFolder fs li ex) acc).1).map (fun r => r.directory)
        = acc.1.map (fun r => r.directory)
            ++ l.filter (fun d => fs.isDir (pjoin gangsBase d)) := by
  intro l
  induction l with
  | nil => intro acc; simp
  | cons d l' ih =>
    intro acc
    show ((l'.foldl _ (scanGangFolder fs li ex acc d)).1).map _ = _
    rw [ih]
    unfold scanGangFolder
    split
    · rename_i hd
      simp [List.filter_cons, hd]
      rfl
    · rename_i hd
      simp only [Bool.not_eq_true] at hd
      simp [List.filter_cons, hd]

theorem districts_fold_dirs (fs : FS) (li : String → DistInfo)
    (ex : String → Option DistInfo) :
    ∀ (l : List String) (acc : List DistrictRec × Nat),
      ((l.foldl (scanDistrictFolder fs li ex) acc).1).map (fun r => r.directory)
        = acc.1.map (fun r => r.directory)
            ++ l.filter (fun d => fs.isDir (pjoin districtsBase d)) := by
  intro l
  induction l with
  | nil => intro acc; simp
  | cons d l' ih =>
    intro acc
    show ((l'.foldl _ (scanDistrictFolder fs li ex acc d)).1).map _ = _
    rw [ih]
    unfold scanDistrictFolder
    split
    · rename_i hd
      simp [List.filter_cons, hd]
      rfl
    · rename_i hd
      simp only [Bool.not_eq_true] at hd
      simp [List.filter_cons, hd]

/-- C9 (amended): gangs and districts are emitted in sorted directory
order and, in every category, ids are assigned sequentially starting at 1
(the characters category is walked per gender bucket, so its global order
need not be sorted, but its ids are still `1..N`). -/
theorem aggregator_order_and_ids :
    (∀ (fs : FS) (li : String → CharInfo) (ex : String → Option CharInfo),
      (scan_characters fs li ex).map (fun r => r.id)
        = List.range' 1 (scan_characters fs li ex).length)
    ∧ (∀ (fs : FS) (li : String → GangInfo) (ex : String → Option GangInfo),
      (scan_gangs fs li ex).map (fun r => r.id)
        = List.range' 1 (scan_gangs fs li ex).length
      ∧ List.Sorted pyStrLe ((scan_gangs fs li ex).map (fun r => r.directory)))
    ∧ (∀ (fs : FS) (li : String → DistInfo) (ex : String → Option DistInfo),
      (scan_districts fs li ex).map (fun r => r.id)
        = List.range' 1 (scan_districts fs li ex).length
      ∧ List.Sorted pyStrLe ((scan_districts fs li ex).map (fun r => r.directory))) := by
  refine ⟨?_, ?_, ?_⟩
  · intro fs li ex
    unfold scan_characters
    split
    · exact (foldl_inv _ _ (scanGender_ids fs li ex) _ ([], 1) ⟨rfl, rfl⟩).2
    · simp
  · intro fs li ex
    constructor
    · unfold scan_gangs
      split
      · exact (foldl_inv _ _ (scanGangFolder_ids fs li ex) _ ([], 1) ⟨rfl, rfl⟩).2
      · simp
    · unfold scan_gangs
      split
      · rw [gangs_fold_dirs fs li ex _ ([], 1)]
        simp only [List.map_nil, List.nil_append]
        exact List.Pairwise.filter _ (List.sorted_insertionSort pyStrLe _)
      · simp
  · intro fs li ex
    constructor
    · unfold scan_districts
      split
      · exact (foldl_inv _ _ (scanDistrictFolder_ids fs li ex) _ ([], 1) ⟨rfl, rfl⟩).2
      · simp
    · unfold scan_districts
      split
      · rw [districts_fold_dirs fs li ex _ ([], 1)]
        simp only [List.map_nil, List.nil_append]
        exact List.Pairwise.filter _ (List.sorted_insertionSort pyStrLe _)
      · simp

/-- Filesystem with one male character folder `zed` and one female
character folder `alice`: the gender-bucket walk emits `zed` before
`alice`, which is not sorted directory order. -/
def fsUnsorted : FS :=
  { pathExists := fun p =>
      p == "images/characters/sex" || p == "images/characters/sex/male" ||
        p == "images/characters/sex/female"
    listdir := fun p =>
      if p == "images/characters/sex/male" then ["zed"]
      else if p == "images/characters/sex/female" then ["alice"] else []
    isFile := fun _ => false
    isDir := fun p =>
      p == "images/characters/sex/male/zed" ||
        p == "images/characters/sex/female/alice" }

/-- Counterexample to C9 as stated: for the characters category the emitted
records are not in sorted order over entity directory names (`zed` from the
`male` bucket precedes `alice` from the `female` bucket). -/
theorem aggregator_sorted_counterexample :
    (scan_characters fsUnsorted (fun _ => { }) (fun _ => none)).map
        (fun r => r.directory) = ["zed", "alice"] ∧
    ¬ List.Sorted pyStrLe
      ((scan_characters fsUnsorted (fun _ => { }) (fun _ => none)).map
        (fun r => r.directory)) := by
  have hd : (scan_characters fsUnsorted (fun _ => { }) (fun _ => none)).map
      (fun r => r.directory) = ["zed", "alice"] := by decide
  refine ⟨hd, ?_⟩
  rw [hd]
  intro h
  have := (List.pairwise_cons.mp h).1 "alice" (by simp)
  exact absurd this (by decide)

/-- C8: a category whose source root directory does not exist yields an
empty aggregate list. -/
theorem scan_missing_root_empty :
    (∀ (fs : FS) (li : String → CharInfo) (ex : String → Option CharInfo),
      fs.pathExists charactersBase = false → scan_characters fs li ex = [])
    ∧ (∀ (fs : FS) (li : String → GangInfo) (ex : String → Option GangInfo),
      fs.pathExists gangsBase = false → scan_gangs fs li ex = [])
    ∧ (∀ (fs : FS) (li : String → DistInfo) (ex : String → Option DistInfo),
      fs.pathExists districtsBase = false → scan_districts fs li ex = []) := by
  refine ⟨?_, ?_, ?_⟩
  · intro fs li ex h
    simp [scan_characters, h]
  · intro fs li ex h
    simp [scan_gangs, h]
  · intro fs li ex h
    simp [scan_districts, h]

/-- Filesystem with nothing on it. -/
def emptyFS : FS :=
  { pathExists := fun _ => false
    listdir := fun _ => []
    isFile := fun _ => false
    isDir := fun _ => false }

/-- Witness for C8 on the empty filesystem. -/
theorem scan_missing_root_empty_witness :
    scan_characters emptyFS (fun _ => { }) (fun _ => none) = [] ∧
    scan_gangs emptyFS (fun _ => { }) (fun _ => none) = [] ∧
    scan_districts emptyFS (fun _ => { }) (fun _ => none) = [] :=
  ⟨scan_missing_root_empty.1 emptyFS _ _ rfl,
   scan_missing_root_empty.2.1 emptyFS _ _ rfl,
   scan_missing_root_empty.2.2 emptyFS _ _ rfl⟩


/-- Pairwise relation between two scan states that agree on the id counter
and on the images column of what has been emitted so far. -/
def imagesRel {ρ : Type} (imOf : ρ → List String) (acc acc' : List ρ × Nat) : Prop :=
  acc.2 = acc'.2 ∧ acc.1.map imOf = acc'.1.map imOf

theorem scanCharFolder_images_rel (fs : FS) (li li' : String → CharInfo)
    (ex ex' : String → Option CharInfo) (g : String)
    (acc acc' : List CharRec × Nat) (d : String)
    (h : imagesRel (fun r => r.images) acc acc') :
    imagesRel (fun r => r.images) (scanCharFolder fs li ex g acc d)
      (scanCharFolder fs li' ex' g acc' d) := by
  obtain ⟨h1, h2⟩ := h
  unfold scanCharFolder
  by_cases hd : fs.isDir (pjoin (pjoin charactersBase g) d) = true
  · rw [if_pos hd, if_pos hd]
    refine ⟨by simp [h1], ?_⟩
    simp only [List.map_append, List.map_cons, List.map_nil]
    rw [h2]
    have : (build_char fs li ex g d acc.2).images
        = (build_char fs li' ex' g d acc'.2).images := rfl
    rw [this]
  · rw [if_neg hd, if_neg hd]
    exact ⟨h1, h2⟩

theorem scanGender_images_rel (fs : FS) (li li' : String → CharInfo)
    (ex ex' : String → Option CharInfo) (acc acc' : List CharRec × Nat)
    (g : String) (h : imagesRel (fun r => r.images) acc acc') :
    imagesRel (fun r => r.images) (scanGender fs li ex acc g)
      (scanGender fs li' ex' acc' g) := by
  unfold scanGender
  by_cases hg : fs.pathExists (pjoin charactersBase g) = true
  · rw [if_pos hg, if_pos hg]
    exact foldl_rel _ _ _ (scanCharFolder_images_rel fs li li' ex ex' g) _ acc acc' h
  · rw [if_neg hg, if_neg hg]
    exact h

/-- Path of the character folder used in the stale-override example. -/
def vicPath : String := "images/characters/sex/male/vic"

/-- Filesystem whose scan of the `vic` folder yields `a.png` and `b.png`
(listed unsorted, with an `info.json` alongside). -/
def staleFS : FS :=
  { pathExists := fun p =>
      p == "images/characters/sex" || p == "images/characters/sex/male" || p == vicPath
    listdir := fun p =>
      if p == "images/characters/sex/male" then ["vic"]
      else if p == vicPath then ["b.png", "a.png", "info.json"] else []
    isFile := fun p =>
      p == "images/characters/sex/male/vic/a.png" ||
        p == "images/characters/sex/male/vic/b.png" ||
        p == "images/characters/sex/male/vic/info.json"
    isDir := fun p => p == vicPath }

/-- Override Record for `vic` carrying a stale `images` value. -/
def staleLoad : String → CharInfo := fun p =>
  if p == vicPath then { name := some "Vic", images := some ["old.png"] } else { }

/-- Old aggregate catalog entry for `Vic`, also with stale images. -/
def staleExisting : String → Option CharInfo := fun n =>
  if n == "Vic" then some { name := some "Vic", images := some ["old.png"] } else none

/-- C1: the `images` field of an aggregated character record is exactly the
URL list derived from the live directory scan, for any override and old
catalog contents; the whole emitted images column is invariant under
changing the Override Records and the prior catalog; and on the concrete
stale-override example the emitted images are those of the fresh scan. -/
theorem images_never_merge :
    (∀ (fs : FS) (li : String → CharInfo) (ex : String → Option CharInfo)
        (g d : String) (idc : Nat),
      (build_char fs li ex g d idc).images
        = get_image_urls (pjoin (pjoin charactersBase g) d)
            (get_image_list fs (pjoin (pjoin charactersBase g) d)))
    ∧ (∀ (fs : FS) (li li' : String → CharInfo) (ex ex' : String → Option CharInfo),
      (scan_characters fs li ex).map (fun r => r.images)
        = (scan_characters fs li' ex').map (fun r => r.images))
    ∧ ((staleLoad vicPath).images = some ["old.png"]
      ∧ (scan_characters staleFS staleLoad staleExisting).map (fun r => r.images)
          = [["https://jose-pires-neto.github.io/Cyberpunk-2077-API/images/characters/sex/male/vic/a.png",
              "https://jose-pires-neto.github.io/Cyberpunk-2077-API/images/characters/sex/male/vic/b.png"]]) := by
  refine ⟨?_, ?_, by decide, by decide⟩
  · intro fs li ex g d idc
    rfl
  · intro fs li li' ex ex'
    unfold scan_characters
    split
    · exact (foldl_rel _ _ _ (scanGender_images_rel fs li li' ex ex') _ ([], 1) ([], 1)
        ⟨rfl, rfl⟩).2
    · rfl


/-! ## The JSON editing service (`editor/server.py`) -/

/-- JSON values as stored in the category files the editor serves. -/
inductive JVal : Type
  | jnull : JVal
  | jnum : Int → JVal
  | jstr : String → JVal
  | jbool : Bool → JVal
  | jarr : List JVal → JVal
  | jobj : List (String × JVal) → JVal

/-- One catalog item: a JSON object as an ordered key/value list (Python
dict insertion order, unique keys). -/
def Item : Type := List (String × JVal)

/-- Lookup of a key (`item.get(k)`), first occurrence. -/
def dictGet : Item → String → Option JVal
  | [], _ => none
  | (k', v') :: rest, k => if k' = k then some v' else dictGet rest k

/-- Python dict assignment `item[k] = v`: replace in place when the key
exists, append at the end otherwise. -/
def dictSet : Item → String → JVal → Item
  | [], k, v => [(k, v)]
  | (k', v') :: rest, k, v =>
    if k' = k then (k', v) :: rest else (k', v') :: dictSet rest k v

/-- The test `x.get('id') == item_id` of `update_one` (server.py line 107);
ids in the catalog are JSON integers. -/
def idMatches (item : Item) (item_id : Int) : Bool :=
  match dictGet item "id" with
  | some (JVal.jnum n) => n == item_id
  | _ => false

/-- Protected fields the editor refuses to update (server.py line 114). -/
def PROTECTED_FIELDS : List String := ["id", "images", "directory"]

/-- The update loop of `update_one` (server.py lines 116-118): apply every
non-protected key of the request payload, in payload order. -/
def apply_updates (item : Item) (updates : List (String × JVal)) : Item :=
  updates.foldl
    (fun it kv => if PROTECTED_FIELDS.contains kv.1 then it else dictSet it kv.1 kv.2)
    item

/-- Embedding of the `update_one` route (server.py lines 100-126): the
result is the response payload (`none` is the 404 "Item não encontrado"
error) paired with the catalog as stored after the request (`save_json` is
only reached on success; the index produced by `findIdx?` is in range, so
the `getD` default is never taken). -/
def update_one (data : List Item) (item_id : Int) (updates : List (String × JVal)) :
    Option Item × List Item :=
  match data.findIdx? (fun x => idMatches x item_id) with
  | none => (none, data)
  | some i =>
    let newItem := apply_updates ((data.get? i).getD []) updates
    (some newItem, data.set i newItem)

theorem dictGet_dictSet_ne (item : Item) (k f : String) (v : JVal) (h : k ≠ f) :
    dictGet (dictSet item k v) f = dictGet item f := by
  induction item with
  | nil => simp [dictGet, dictSet, h]
  | cons kv rest ih =>
    obtain ⟨k', v'⟩ := kv
    by_cases hk : k' = k
    · subst hk
      simp [dictSet, dictGet, h]
    · simp [dictSet, dictGet, hk, ih]

theorem apply_updates_protected (updates : List (String × JVal)) :
    ∀ (item : Item) (f : String), PROTECTED_FIELDS.contains f = true →
      dictGet (apply_updates item updates) f = dictGet item f := by
  induction updates with
  | nil => intro item f _; rfl
  | cons kv rest ih =>
    intro item f hf
    show dictGet (apply_updates
      (if PROTECTED_FIELDS.contains kv.1 then item else dictSet item kv.1 kv.2) rest) f
      = dictGet item f
    by_cases hp : PROTECTED_FIELDS.contains kv.1 = true
    · rw [if_pos hp]
      exact ih item f hf
    · rw [if_neg hp]
      rw [ih _ f hf]
      refine dictGet_dictSet_ne item kv.1 f kv.2 ?_
      intro he
      rw [he] at hp
      exact hp hf

theorem findIdx?_none_of_all_false {α : Type} (p : α → Bool) :
    ∀ (l : List α) (i : Nat), (∀ a ∈ l, p a = false) → l.findIdx? p i = none := by
  intro l
  induction l with
  | nil => intro i _; rfl
  | cons a l' ih =>
    intro i h
    have ha : p a = false := h a (by simp)
    simp only [List.findIdx?, ha]
    exact ih (i + 1) fun a' ha' => h a' (by simp [ha'])

/-- C7: an update request for an id no item carries yields the not-found
error and leaves the stored catalog unchanged; a matching update applies
only the non-protected payload keys, so the item's `id`, `images` and
`directory` keep their prior values whatever the payload contains. -/
theorem update_one_spec :
    (∀ (data : List Item) (k : Int) (updates : List (String × JVal)),
      (∀ item ∈ data, idMatches item k = false) →
      update_one data k updates = (none, data))
    ∧ (∀ (data : List Item) (k : Int) (updates : List (String × JVal)) (i : Nat)
        (item : Item),
      data.findIdx? (fun x => idMatches x k) = some i →
      data.get? i = some item →
      ∃ newItem, update_one data k updates = (some newItem, data.set i newItem)
        ∧ dictGet newItem "id" = dictGet item "id"
        ∧ dictGet newItem "images" = dictGet item "images"
        ∧ dictGet newItem "directory" = dictGet item "directory") := by
  constructor
  · intro data k updates h
    unfold update_one
    rw [findIdx?_none_of_all_false _ data 0 h]
  · intro data k updates i item hidx hget
    unfold update_one
    rw [hidx]
    refine ⟨apply_updates ((data.get? i).getD []) updates, rfl, ?_, ?_, ?_⟩
    · rw [hget]
      exact apply_updates_protected updates item "id" (by decide)
    · rw [hget]
      exact apply_updates_protected updates item "images" (by decide)
    · rw [hget]
      exact apply_updates_protected updates item "directory" (by decide)

/-- First item of the example catalog. -/
def exItem1 : Item :=
  [("id", JVal.jnum 1), ("name", JVal.jstr "V"),
   ("images", JVal.jarr [JVal.jstr "a.png"]), ("directory", JVal.jstr "v")]

/-- Second item of the example catalog. -/
def exItem2 : Item :=
  [("id", JVal.jnum 2), ("name", JVal.jstr "Judy Alvarez"),
   ("images", JVal.jarr []), ("directory", JVal.jstr "judy_alvarez")]

/-- Example two-item catalog. -/
def exCatalog : List Item := [exItem1, exItem2]

/-- Example payload that tries to overwrite protected fields as well. -/
def exUpdates : List (String × JVal) :=
  [("name", JVal.jstr "New Name"), ("id", JVal.jnum 99),
   ("images", JVal.jarr []), ("directory", JVal.jstr "hack")]

/-- Witness for C7: id 5 matches nothing and the catalog is untouched; id 1
matches the first item and its protected fields survive a hostile payload. -/
theorem update_one_spec_witness :
    update_one exCatalog 5 exUpdates = (none, exCatalog) ∧
    (∃ newItem, update_one exCatalog 1 exUpdates = (some newItem, exCatalog.set 0 newItem)
      ∧ dictGet newItem "id" = dictGet exItem1 "id"
      ∧ dictGet newItem "images" = dictGet exItem1 "images"
      ∧ dictGet newItem "directory" = dictGet exItem1 "directory") :=
  ⟨update_one_spec.1 exCatalog 5 exUpdates (by decide),
   update_one_spec.2 exCatalog 1 exUpdates 0 exItem1 rfl rfl⟩

/-- C10: a successful partial update leaves every item other than the
matched one untouched, at its original position, and preserves the length
of the stored list. -/
theorem update_one_frame (data : List Item) (k : Int)
    (updates : List (String × JVal)) (i : Nat)
    (h : data.findIdx? (fun x => idMatches x k) = some i) :
    (update_one data k updates).2.length = data.length ∧
    ∀ j, j ≠ i → (update_one data k updates).2[j]? = data[j]? := by
  unfold update_one
  rw [h]
  constructor
  · exact List.length_set data i _
  · intro j hj
    exact List.getElem?_set_ne (Ne.symm hj)

/-- Witness for C10 on the example catalog: updating id 1 keeps the second
item and the length. -/
theorem update_one_frame_witness :
    (update_one exCatalog 1 exUpdates).2.length = exCatalog.length ∧
    ∀ j, j ≠ 0 → (update_one exCatalog 1 exUpdates).2[j]? = exCatalog[j]? :=
  update_one_frame exCatalog 1 exUpdates 0 rfl

end Cyberpunk
